import Mathlib

/-!
# Verification of the mio notification channel (`src/notify.rs`)

Shallow embedding of the coordination core of `Notify` / `NotifyInner`:
an atomic integer counter (`state`), a bounded message queue, and a wake
signal (`os::Awakener`).  The two compare-and-swap retry loops in
`NotifyInner::check` and `NotifyInner::notify` are lock-free
read-modify-write operations: each loop retries until the CAS succeeds, so a
completed call is equivalent to one atomic application of the loop body's
update function to the counter, computed from the observed value `cur` for
which the CAS succeeded.  We embed those update functions directly and model
whole operations as atomic steps on the channel state.
-/

namespace Mio

/-- The sleep sentinel: `const SLEEP: int = -1;` (notify.rs line 8). -/
def SLEEP : Int := -1

/-- Two's-complement wrap of a mathematical integer into the machine `int`
range `[-2^63, 2^63)`: `int`/`uint` in this code's Rust era are
pointer-sized (64-bit here) and arithmetic wraps. -/
def wrap (x : Int) : Int :=
  (x + 2 ^ 63) % 2 ^ 64 - 2 ^ 63

/-- The wrapping `uint -> int` cast `max as int` at notify.rs line 72:
reinterprets the 64-bit pattern as two's complement, so values at or above
`2^63` come out negative (`uint::MAX` becomes `-1`). -/
def uint_as_int (n : Nat) : Int :=
  wrap (n : Int)

/-- Check-side update of the counter, the body of the CAS loop in
`NotifyInner::check` (notify.rs lines 77-92): for observed value `cur`,
if `cur > 0` the next value is `0` when `max >= cur` and `cur - max`
otherwise; if `cur <= 0` the next value is `SLEEP` when `will_sleep` and
`0` otherwise.  Here `max` is the `int` obtained by the wrapping cast at
line 72 (`uint_as_int`), the comparison at line 81 compares that cast
value, and the machine subtraction at line 84 wraps. -/
def check_next (cur : Int) (max : Nat) (will_sleep : Bool) : Int :=
  if cur > 0 then
    if uint_as_int max ≥ cur then 0 else wrap (cur - uint_as_int max)
  else
    if will_sleep then SLEEP else 0

/-- The value `NotifyInner::check` returns (notify.rs lines 103-107):
the observed counter `cur` for which the CAS succeeded, cast to `uint`,
with negative values mapped to `0`. -/
def check_ret (cur : Int) : Nat :=
  if cur < 0 then 0 else cur.toNat

/-- A completed `NotifyInner::check(max, will_sleep)` call, linearized at its
successful CAS: for the observed counter value `cur` it returns
`(check_ret cur, check_next cur max will_sleep)` — the `uint` handed back to
the caller and the new counter value. -/
def check (cur : Int) (max : Nat) (will_sleep : Bool) : Nat × Int :=
  (check_ret cur, check_next cur max will_sleep)

/-- Notify-side update of the counter, the body of the CAS loop in
`NotifyInner::notify` (notify.rs line 126):
`nxt = if cur == SLEEP { 1 } else { cur + 1 }`. -/
def notify_next (cur : Int) : Int :=
  if cur = SLEEP then 1 else cur + 1

/-- The Rust return type `Result<(), M>` of `NotifyInner::notify`. -/
inductive RustResult (M : Type) where
  | ok : RustResult M
  | err (m : M) : RustResult M
deriving DecidableEq, Repr

/-- Outcome of a `notify` call: either the function returns a
`Result<(), M>` value, or it panics (notify.rs lines 118 and 139) and never
returns.  The two panic sites are `panic!("queue full")` and
`panic!("failed to awaken event loop")`. -/
inductive NotifyOutcome (M : Type) where
  | ret (r : RustResult M) : NotifyOutcome M
  | abortQueueFull : NotifyOutcome M
  | abortWakeFailed : NotifyOutcome M
deriving DecidableEq, Repr

/-- The channel state visible to the coordination core: the atomic counter,
the bounded queue's contents, and the queue's fixed capacity.  The queue
(`util::BoundedQueue`) is outside `src/`; per §6 of the spec it is a bounded
FIFO whose `push` returns `false` at capacity, modelled as a list with a
capacity bound. -/
structure Chan (M : Type) where
  capacity : Nat
  state : Int
  queue : List M
deriving DecidableEq, Repr

/-- `NotifyInner::with_capacity` (notify.rs lines 63-69): counter starts at
`0`, queue empty with the given capacity.  (The fallible acquisition of the
`os::Awakener` resource is outside the coordination core and not claimed.) -/
def with_capacity (M : Type) (capacity : Nat) : Chan M :=
  { capacity := capacity, state := 0, queue := [] }

/-- Modelled from the spec: `util::BoundedQueue::push` is not under `src/`;
§6 specifies `push(message) -> bool (false if at capacity)` for a bounded
FIFO queue of fixed capacity.  Returns the success flag and the new
channel. -/
def push {M : Type} (c : Chan M) (v : M) : Bool × Chan M :=
  if c.queue.length < c.capacity then
    (true, { c with queue := c.queue ++ [v] })
  else
    (false, c)

/-- A completed `NotifyInner::notify(value)` call (notify.rs lines 114-144),
with each CAS loop linearized to one atomic update.  `wakeFails` says
whether `self.awaken.wakeup()` would return an error if invoked.  The result
is `(outcome, channel, wakeAttempted)`:
* push into the queue first; if the push fails the code panics
  (`panic!("queue full")`) before touching the counter;
* otherwise update the counter by `notify_next`;
* if the observed prior value was `SLEEP`, attempt the wakeup; if that
  fails the code panics (`panic!("failed to awaken event loop")`);
* otherwise return `Ok(())`. -/
def notify {M : Type} (c : Chan M) (v : M) (wakeFails : Bool) :
    NotifyOutcome M × Chan M × Bool :=
  match push c v with
  | (false, c1) => (NotifyOutcome.abortQueueFull, c1, false)
  | (true, c1) =>
    let cur := c1.state
    let c2 := { c1 with state := notify_next cur }
    if cur = SLEEP then
      if wakeFails then
        (NotifyOutcome.abortWakeFailed, c2, true)
      else
        (NotifyOutcome.ret RustResult.ok, c2, true)
    else
      (NotifyOutcome.ret RustResult.ok, c2, false)

/-- `NotifyInner::check` acting on the whole channel (the queue is
untouched). -/
def Chan.check {M : Type} (c : Chan M) (max : Nat) (will_sleep : Bool) :
    Nat × Chan M :=
  ((Mio.check c.state max will_sleep).1,
   { c with state := (Mio.check c.state max will_sleep).2 })

/-- One operation on the coordination counter, payload-free: messages do not
influence the counter's transitions.  An `Op.notify` step stands for a
`notify` call whose queue push succeeded (a failed push panics before the
counter update and so contributes no step). -/
inductive Op where
  | check (max : Nat) (will_sleep : Bool) : Op
  | notify : Op
deriving DecidableEq, Repr

/-- Effect of one completed operation on the counter. -/
def stepState (s : Int) : Op → Int
  | Op.check max ws => check_next s max ws
  | Op.notify => notify_next s

/-- Counter value after running a sequence of completed operations. -/
def runState (s : Int) : List Op → Int
  | [] => s
  | op :: ops => runState (stepState s op) ops

/-- An operation whose `check` argument `max` is below `2^63`, so the
wrapping `uint -> int` cast at notify.rs line 72 preserves its value;
`notify` carries no such argument. -/
def smallMax : Op → Bool
  | Op.check max _ => decide (max < 2 ^ 63)
  | Op.notify => true

/-- Modelled from the spec: the Wake Signal (`os::Awakener`) is not under
`src/`; §6 requires `cleanup()`: "releases OS resources; must be idempotent
(safe to call more than once)".  We track whether the resource has been
released; one cleanup call performs the OS release only when it has not yet
happened, and it cannot fail.  `Notify::cleanup` and `NotifyInner::cleanup`
(notify.rs lines 43-45 and 146-148) merely forward to it. -/
structure Awakener where
  released : Bool
deriving DecidableEq, Repr

/-- A fresh Wake Signal, resource held. -/
def Awakener.new : Awakener := { released := false }

/-- One `cleanup()` call: returns the new state and the number of OS
releases it performed (0 or 1). -/
def Awakener.cleanup (a : Awakener) : Awakener × Nat :=
  if a.released then (a, 0) else ({ released := true }, 1)

/-- `n` successive `cleanup()` calls; returns the final state and the total
number of OS releases performed. -/
def cleanupTimes (a : Awakener) : Nat → Awakener × Nat
  | 0 => (a, 0)
  | n + 1 =>
    let r1 := a.cleanup
    let r2 := cleanupTimes r1.1 n
    (r2.1, r1.2 + r2.2)

/-- A channel whose queue is at capacity and whose counter is `0`, reached
from `with_capacity 1` by one accepted `notify` and one `check(1, false)`. -/
def fullChan : Chan Nat := ((notify (with_capacity Nat 1) 7 false).2.1.check 1 false).2

/-- A channel that has gone to sleep: from `with_capacity 2`, one
`check(5, true)` call transitions the counter to `SLEEP`. -/
def sleepChan : Chan Nat := ((with_capacity Nat 2).check 5 true).2

/-! ## Helper lemmas -/

/-- Once released, further cleanup calls change nothing and release
nothing. -/
lemma cleanupTimes_of_released (n : Nat) :
    cleanupTimes { released := true } n = ({ released := true }, 0) := by
  induction n with
  | zero => rfl
  | succ n ih => simp [cleanupTimes, Awakener.cleanup, ih]

/-- Wrapping is the identity on values already in the machine `int`
range. -/
lemma wrap_eq_self (x : Int) (h1 : -(2 ^ 63) ≤ x) (h2 : x < 2 ^ 63) :
    wrap x = x := by
  simp only [wrap]
  omega

/-- The `uint -> int` cast is value-preserving below `2^63`. -/
lemma uint_as_int_eq (n : Nat) (h : n < 2 ^ 63) : uint_as_int n = n := by
  simp only [uint_as_int, wrap]
  omega

/-- One completed operation with an in-range `check` argument, acting on a
counter in `[-1, 2^63)`, keeps the counter at or above the sleep sentinel
`-1` and raises its non-negative part by at most one (a `notify` observing
`SLEEP = -1` jumps to `1`, still one above the clamped value `0`). -/
lemma stepState_small (s : Int) (op : Op) (hlo : -1 ≤ s) (hhi : s < 2 ^ 63)
    (hop : smallMax op = true) :
    -1 ≤ stepState s op ∧ stepState s op ≤ max s 0 + 1 := by
  cases op with
  | check max ws =>
    simp only [smallMax, decide_eq_true_eq] at hop
    simp only [stepState, check_next, uint_as_int_eq max hop, SLEEP]
    split_ifs with h1 h2
    · exact ⟨by omega, by omega⟩
    · rw [wrap_eq_self _ (by omega) (by omega)]
      exact ⟨by omega, by omega⟩
    · exact ⟨by omega, by omega⟩
    · exact ⟨by omega, by omega⟩
  | notify =>
    simp only [stepState, notify_next, SLEEP]
    split_ifs
    all_goals exact ⟨by omega, by omega⟩

/-- A run of completed operations whose `check` arguments are all in range,
short enough that the counter cannot reach the machine bound, keeps the
counter at or above `-1` and below its starting clamp plus the number of
operations. -/
lemma runState_bounds (ops : List Op) : ∀ s : Int, -1 ≤ s →
    max s 0 + ops.length < 2 ^ 63 → (∀ op ∈ ops, smallMax op = true) →
    -1 ≤ runState s ops ∧ runState s ops ≤ max s 0 + ops.length := by
  induction ops with
  | nil =>
    intro s hlo _ _
    simp only [runState, List.length_nil, Nat.cast_zero]
    exact ⟨hlo, by omega⟩
  | cons op ops ih =>
    intro s hlo hlen hall
    simp only [List.length_cons, Nat.cast_add, Nat.cast_one] at hlen
    have hstep := stepState_small s op hlo (by omega)
      (hall op (List.mem_cons_self op ops))
    have ihr := ih (stepState s op) hstep.1 (by omega)
      (fun o ho => hall o (List.mem_cons_of_mem _ ho))
    simp only [runState, List.length_cons, Nat.cast_add, Nat.cast_one]
    exact ⟨ihr.1, by omega⟩

/-! ## Claim theorems -/

/-- C1 (counterexample): the claim that `check(max, will_sleep)` returns
the claim `min(cur, max)` and deducts `min(cur, max)` for every call is
false on the code.  From the initial counter `0`, five accepted `notify`
calls reach counter `5`; a `check(2, false)` call observing `5` returns
`5`, the raw previous counter value, not `min(5, 2) = 2` (the state update
does deduct only `2`, leaving `3`).  Moreover for `max = uint::MAX` the
wrapping cast at notify.rs line 72 makes `max as int = -1`, so the same
call sets the counter to `6` — a deduction of `-1`, not the
`min(5, uint::MAX) = 5` of the claim. -/
theorem check_raw_return_cex :
    runState 0 (List.replicate 5 Op.notify) = 5 ∧
    (check 5 2 false).1 = 5 ∧
    min (5 : Nat) 2 = 2 ∧
    (check 5 2 false).1 ≠ min 5 2 ∧
    (check 5 2 false).2 = 3 ∧
    uint_as_int (2 ^ 64 - 1) = -1 ∧
    (check 5 (2 ^ 64 - 1) false).2 = 6 ∧
    (check 5 (2 ^ 64 - 1) false).2 ≠ 5 - min 5 ((2 ^ 64 - 1 : Nat) : Int) := by
  decide

/-- C1 (amended): for every `check(max, will_sleep)` call with
`max < 2^63` — so the wrapping `uint -> int` cast at notify.rs line 72
preserves it — and an observed counter in the machine `int` range, the
check-side update holds as specified: for observed `cur > 0` the new
counter is `cur - min(cur, max)` (so `0` when `max ≥ cur`), and for
`cur ≤ 0` it is `SLEEP` when `will_sleep` and `0` otherwise.  But the
value returned to the caller is the raw observed previous counter clamped
to zero (`cur` when `cur > 0`, else `0`), which can exceed
`min(cur, max)`. -/
theorem check_update_and_raw_return (cur : Int) (max : Nat) (ws : Bool)
    (hmax : max < 2 ^ 63) (hcur_lo : -(2 ^ 63) ≤ cur)
    (hcur_hi : cur < 2 ^ 63) :
    (0 < cur → (check cur max ws).2 = cur - min cur (max : Int) ∧
      (check cur max ws).1 = cur.toNat) ∧
    (cur ≤ 0 → (check cur max ws).2 = (if ws then SLEEP else 0) ∧
      (check cur max ws).1 = 0) := by
  constructor
  · intro h
    refine ⟨?_, ?_⟩
    · simp only [check, check_next, uint_as_int_eq max hmax, if_pos h]
      split_ifs with h2
      · omega
      · rw [wrap_eq_self _ (by omega) (by omega)]
        omega
    · simp only [check, check_ret]
      rw [if_neg (by omega : ¬ cur < 0)]
  · intro h
    have hnp : ¬ cur > 0 := by omega
    refine ⟨?_, ?_⟩
    · simp only [check, check_next, if_neg hnp]
    · simp only [check, check_ret]
      split_ifs with h2
      · rfl
      · omega

/-- Witness for C1 (amended) at `cur = 5`, `max = 2`. -/
theorem check_update_and_raw_return_witness :
    (check 5 2 false).2 = 5 - min 5 (2 : Int) ∧
    (check 5 2 false).1 = (5 : Int).toNat :=
  (check_update_and_raw_return 5 2 false (by decide) (by decide)
    (by decide)).1 (by decide)

/-- C2 (counterexample): the claim that `check(max, _)` returns a value in
`[0, max]` is false on the code.  The counter value `7` is reachable from
the initial `0` by seven accepted `notify` calls, and `check(3, true)`
observing `7` returns `7 > 3`. -/
theorem check_ret_exceeds_max_cex :
    runState 0 (List.replicate 7 Op.notify) = 7 ∧
    (check 7 3 true).1 = 7 ∧
    ¬ (check 7 3 true).1 ≤ 3 := by decide

/-- C2 (amended): `check(max, _)` always returns a non-negative value, equal
to the observed counter clamped to zero — so it is bounded by the pending
count, not by `max`. -/
theorem check_ret_eq_toNat (s : Int) (max : Nat) (ws : Bool) :
    (check s max ws).1 = s.toNat := by
  simp only [check, check_ret]
  split_ifs with h
  · omega
  · rfl

/-- C3: on a channel whose queue is at capacity, `notify` does not return
the message to the caller — it panics (`panic!("queue full")`,
notify.rs line 118), aborting the process; the counter and the queue are
left unchanged and no wake is attempted.  The `// TODO: Don't fail` comment
marks the panic as a known slip against the intended rejection
behaviour. -/
theorem notify_full_queue_aborts :
    fullChan.queue.length = fullChan.capacity ∧
    (notify fullChan 9 false).1 = NotifyOutcome.abortQueueFull ∧
    (notify fullChan 9 false).2.1 = fullChan ∧
    (notify fullChan 9 false).2.2 = false := by decide

/-- C4: on a sleeping channel (counter `SLEEP` after `check(5, true)`), a
`notify` whose push succeeds attempts the wakeup, and when the wakeup fails
it does not surface a recoverable error — it panics
(`panic!("failed to awaken event loop")`, notify.rs line 139), aborting the
process.  The `// TODO: Don't fail` comment marks the panic as a known slip
against the intended recoverable `WakeError`. -/
theorem notify_wake_failure_aborts :
    sleepChan.state = SLEEP ∧
    (notify sleepChan 5 true).1 = NotifyOutcome.abortWakeFailed ∧
    (notify sleepChan 5 true).2.2 = true ∧
    (notify sleepChan 5 true).2.1.state = 1 ∧
    (notify sleepChan 5 true).2.1.queue = [5] := by decide

/-- C7: the value `check(max, will_sleep)` returns is never negative, and a
call observing a negative counter (in particular the `SLEEP` sentinel `-1`)
returns `0` rather than a negative claim. -/
theorem check_ret_nonneg_sleep_zero (s : Int) (max : Nat) (ws : Bool) :
    (0 : Int) ≤ ((check s max ws).1 : Int) ∧
    (s < 0 → (check s max ws).1 = 0) := by
  refine ⟨Int.natCast_nonneg _, fun h => ?_⟩
  simp only [check, check_ret, if_pos h]

/-- Witness for C7 at the `SLEEP` sentinel. -/
theorem check_ret_nonneg_sleep_zero_witness :
    (0 : Int) ≤ ((check SLEEP 4 true).1 : Int) ∧ (check SLEEP 4 true).1 = 0 :=
  ⟨(check_ret_nonneg_sleep_zero SLEEP 4 true).1,
   (check_ret_nonneg_sleep_zero SLEEP 4 true).2 (by decide)⟩

/-- C8: starting from a fresh Wake Signal, any number `n` of `cleanup()`
calls performs the OS release exactly `min n 1` times — zero calls release
nothing, one or more calls release exactly once, so the second and every
later call is a no-op — and no call can fail. -/
theorem cleanup_idempotent (n : Nat) :
    (cleanupTimes Awakener.new n).2 = min n 1 ∧
    (cleanupTimes Awakener.new n).1.released = decide (0 < n) := by
  cases n with
  | zero => simp [cleanupTimes, Awakener.new]
  | succ n =>
    simp [cleanupTimes, Awakener.new, Awakener.cleanup, cleanupTimes_of_released]

/-- C9: whenever `notify` returns at all (it can instead panic on a full
queue or a failed wakeup), the returned `Result<(), M>` is `Ok(())`: the
`Err` variant is unreachable. -/
theorem notify_ret_never_err {M : Type} (c : Chan M) (v : M) (wf : Bool)
    (r : RustResult M) (h : (notify c v wf).1 = NotifyOutcome.ret r) :
    r = RustResult.ok := by
  simp only [notify] at h
  split at h
  · simp at h
  · split at h
    · split at h
      · simp at h
      · simp only [NotifyOutcome.ret.injEq] at h
        exact h.symm
    · simp only [NotifyOutcome.ret.injEq] at h
      exact h.symm

/-- Witness for C9 on a fresh channel of capacity 1. -/
theorem notify_ret_never_err_witness :
    (notify (with_capacity Nat 1) 5 false).1 =
      NotifyOutcome.ret RustResult.ok ∧
    (RustResult.ok : RustResult Nat) = RustResult.ok :=
  ⟨by decide,
   notify_ret_never_err (with_capacity Nat 1) 5 false RustResult.ok (by decide)⟩

/-- C10 (counterexample): the claim that every `check` with non-negative
`max` keeps the counter at or above the sleep sentinel `-1` is false on the
code.  From the initial counter `0`, five accepted `notify` calls reach
counter `5`; a `check(2^63, _)` call then computes `max as int = int::MIN`
via the wrapping cast at notify.rs line 72, takes the `cur - max` branch,
and the wrapping machine subtraction drives the counter to `5 - 2^63`, far
below `-1`. -/
theorem state_invariant_cex :
    runState 0 (List.replicate 5 Op.notify ++ [Op.check (2 ^ 63) false]) =
      5 - 2 ^ 63 ∧
    ¬ (-1 ≤ runState 0
        (List.replicate 5 Op.notify ++ [Op.check (2 ^ 63) false])) := by
  decide

/-- C10 (amended): from the initial counter `0`, along any run of fewer
than `2^63` completed operations in which every `check` passes
`max < 2^63` — so the wrapping `uint -> int` cast at notify.rs line 72 is
value-preserving and no machine arithmetic wraps — the counter stays in
`{SLEEP} ∪ {n | n ≥ 0}`, i.e. at or above `-1`, and never exceeds the
number of operations run; and the only step that can produce the `SLEEP`
value from such an in-range counter is a `check` with `will_sleep = true`
observing a non-positive value — `notify` never produces it. -/
theorem state_invariant_small (ops : List Op) (s : Int) (op : Op)
    (hall : ∀ op2 ∈ ops, smallMax op2 = true)
    (hlen : (ops.length : Int) < 2 ^ 63)
    (hs_lo : -1 ≤ s) (hs_hi : s < 2 ^ 63) (hop : smallMax op = true) :
    (-1 ≤ runState 0 ops ∧ runState 0 ops ≤ ops.length) ∧
    (stepState s op = SLEEP → s ≤ 0 ∧ ∃ max, op = Op.check max true) := by
  constructor
  · have h := runState_bounds ops 0 (by omega) (by omega) hall
    exact ⟨h.1, by omega⟩
  · intro hsleep
    cases op with
    | check max ws =>
      simp only [smallMax, decide_eq_true_eq] at hop
      simp only [stepState, check_next, uint_as_int_eq max hop, SLEEP]
        at hsleep
      by_cases hpos : s > 0
      · rw [if_pos hpos] at hsleep
        by_cases h2 : ((max : Int)) ≥ s
        · rw [if_pos h2] at hsleep
          exact absurd hsleep (by decide)
        · rw [if_neg h2] at hsleep
          rw [wrap_eq_self _ (by omega) (by omega)] at hsleep
          exact absurd hsleep (by omega)
      · rw [if_neg hpos] at hsleep
        by_cases hws : ws = true
        · exact ⟨by omega, max, by rw [hws]⟩
        · rw [if_neg hws] at hsleep
          exact absurd hsleep (by decide)
    | notify =>
      simp only [stepState, notify_next, SLEEP] at hsleep
      split_ifs at hsleep
      all_goals omega

/-- Witness for C10 (amended): a single sleep-entering `check` from the
initial state. -/
theorem state_invariant_small_witness :
    (-1 ≤ runState 0 [Op.check 3 true] ∧
      runState 0 [Op.check 3 true] ≤ ([Op.check 3 true].length : Int)) ∧
    (0 : Int) ≤ 0 ∧ ∃ max, Op.check 3 true = Op.check max true := by
  have h := state_invariant_small [Op.check 3 true] 0 (Op.check 3 true)
    (by decide) (by decide) (by decide) (by decide) (by decide)
  have h2 := h.2 (by decide)
  exact ⟨h.1, h2.1, h2.2⟩

end Mio
